import Mathlib

/-!
A shallow embedding of `src/desktop_notifier/base.py`: the notification data
model (`Notification`), the notifier state (`DesktopNotifierBase` with its
bounded deque `_current_notifications` and dict `_notification_for_nid`), and
the orchestration operations `send`, `clear`, `clear_all` and
`_clear_notification_from_cache`.

Python objects are modelled by an explicit heap: a `Notification` value lives
at an object id (`Nat`), and the heap maps object ids to their current field
values.  Mutation of a notification (icon defaulting, identifier assignment)
is modelled as a heap update.  Registry membership is by object identity,
matching Python's default `==` on `Notification` instances, so the deque and
the dict store object ids.

The abstract backend (`_send`, `_clear`, `_clear_all`) is an external
collaborator: its behaviour at each call (raise, or return a platform id) is
an input to the corresponding operation.  Every backend invocation is recorded
in a ghost call log `backendCalls` so that theorems can speak about whether
and with which arguments the backend was reached.
-/

set_option maxHeartbeats 1000000

namespace DesktopNotifier

/-- Enumeration of notification levels (`NotificationLevel` in base.py). -/
inductive NotificationLevel
  | Critical
  | Normal
  | Low
deriving DecidableEq

/-- A platform notification id: `Union[str, int]` in base.py. -/
inductive Nid
  | int (n : Int)
  | str (s : String)
deriving DecidableEq

/-- Python truthiness of a platform id: `0` and `""` are falsy. -/
def Nid.truthy : Nid → Bool
  | .int n => n != 0
  | .str s => s != ""

/-- Python truthiness applied to an `Optional[Union[str, int]]` identifier:
`None`, `0` and `""` are falsy. -/
def identifierTruthy : Option Nid → Bool
  | none => false
  | some k => k.truthy

/-- Python truthiness of an `Optional[str]`: `None` and `""` are falsy.
Used for `if not notification.icon`. -/
def strOptFalsy : Option String → Bool
  | none => true
  | some s => s == ""

/-- The mutable fields of one `Notification` object (base.py lines 58-99).
The callback and button fields hold opaque callables that never influence the
orchestrator logic, so they are omitted.  `__init__` leaves `identifier`
as `None`; it is assigned by `DesktopNotifierBase.send` on success. -/
structure Notification where
  title : String
  message : String
  urgency : NotificationLevel := NotificationLevel.Normal
  icon : Option String := none
  reply_field : Bool := false
  attachment : Option String := none
  sound : Bool := false
  thread : Option String := none
  identifier : Option Nid := none
deriving DecidableEq

/-- One invocation of the abstract backend, recorded in a ghost log.  A
`send` record stores the icon the notification carries at call time (the
backend reads the object after the orchestrator's icon defaulting). -/
inductive BackendCall
  | send (oid : Nat) (icon : Option String) (toReplace : Option Nat)
  | clear (oid : Nat)
  | clearAll
deriving DecidableEq

/-- A Python exception escaping an orchestrator operation: the `IndexError`
from `popleft` on an empty deque, or an exception raised by a backend call
that the orchestrator does not catch. -/
inductive PyErr
  | indexError
  | backendError
deriving DecidableEq

/-- The behaviour of one backend `_send` call: raise, or return a platform
notification id. -/
inductive SendOutcome
  | fail
  | succeed (nid : Nid)
deriving DecidableEq

/-- Lookup in the `_notification_for_nid` dict (first entry with the key;
keys are unique by construction). -/
def dictLookup : List (Nid × Nat) → Nid → Option Nat
  | [], _ => none
  | p :: rest, k => if p.1 = k then some p.2 else dictLookup rest k

/-- Python `d[k] = v`: replace in place if the key is present, else append. -/
def dictInsert : List (Nid × Nat) → Nid → Nat → List (Nid × Nat)
  | [], k, v => [(k, v)]
  | p :: rest, k, v => if p.1 = k then (k, v) :: rest else p :: dictInsert rest k v

/-- Python `d.pop(k)` with `KeyError` swallowed: remove the key if present. -/
def dictErase : List (Nid × Nat) → Nid → List (Nid × Nat)
  | [], _ => []
  | p :: rest, k => if p.1 = k then rest else p :: dictErase rest k

/-- The keys of the `_notification_for_nid` dict. -/
def dictKeys (d : List (Nid × Nat)) : List Nid := d.map Prod.fst

/-- Heap update: mutate the notification object stored at `oid`. -/
def heapUpdate (h : Nat → Notification) (oid : Nat) (n : Notification) :
    Nat → Notification :=
  fun i => if i = oid then n else h i

/-- State of a `DesktopNotifierBase` instance (base.py lines 114-124) plus
the object heap and the ghost backend-call log.  `current_notifications` is
the deque `_current_notifications` (oldest first), `notification_for_nid`
the dict `_notification_for_nid`, both holding object ids. -/
structure DesktopNotifierBase where
  app_name : String
  app_icon : Option String
  notification_limit : Option Nat
  heap : Nat → Notification
  current_notifications : List Nat
  notification_for_nid : List (Nid × Nat)
  backendCalls : List BackendCall

/-- `DesktopNotifierBase.__init__`: empty deque (with `notification_limit` as
`maxlen`) and empty dict. -/
def DesktopNotifierBase.init (app_name : String) (app_icon : Option String)
    (notification_limit : Option Nat) (heap : Nat → Notification) :
    DesktopNotifierBase :=
  { app_name := app_name
    app_icon := app_icon
    notification_limit := notification_limit
    heap := heap
    current_notifications := []
    notification_for_nid := []
    backendCalls := [] }

/-- `deque.append` on a deque with `maxlen`: when over capacity the leftmost
elements are dropped. -/
def dequeAppend (maxlen : Option Nat) (d : List Nat) (x : Nat) : List Nat :=
  match maxlen with
  | none => d ++ [x]
  | some n => (d ++ [x]).drop (d.length + 1 - n)

/-- `deque.appendleft` on a deque with `maxlen`: when over capacity the
rightmost elements are dropped. -/
def dequeAppendLeft (maxlen : Option Nat) (d : List Nat) (x : Nat) : List Nat :=
  match maxlen with
  | none => x :: d
  | some n => (x :: d).take n

/-- Lines 150-151 of base.py: `if not notification.icon:
notification.icon = self.app_icon`. -/
def iconStep (s : DesktopNotifierBase) (oid : Nat) : DesktopNotifierBase :=
  if strOptFalsy (s.heap oid).icon then
    { s with heap := heapUpdate s.heap oid { s.heap oid with icon := s.app_icon } }
  else s

/-- Line 155 of base.py: `len(self._current_notifications) ==
self.notification_limit` (with `len(...) == None` being `False`). -/
def atCapacity (s : DesktopNotifierBase) : Bool :=
  match s.notification_limit with
  | none => false
  | some n => s.current_notifications.length == n

/-- Lines 160-173 of base.py: the `try`/`except`/`else` around
`await self._send(notification, notification_to_replace)`.  On failure the
tentatively evicted notification (always truthy as a Python object) is
re-inserted at the front; on success the identifier is assigned and the
notification committed to deque and dict. -/
def sendBackendStep (s : DesktopNotifierBase) (oid : Nat) (toReplace : Option Nat)
    (outcome : SendOutcome) : DesktopNotifierBase × Option PyErr :=
  match outcome with
  | .fail =>
    match toReplace with
    | some r =>
      ({ s with
          backendCalls := s.backendCalls ++ [BackendCall.send oid (s.heap oid).icon toReplace]
          current_notifications :=
            dequeAppendLeft s.notification_limit s.current_notifications r },
        none)
    | none =>
      ({ s with
          backendCalls := s.backendCalls ++ [BackendCall.send oid (s.heap oid).icon toReplace] },
        none)
  | .succeed nid =>
      ({ s with
          backendCalls := s.backendCalls ++ [BackendCall.send oid (s.heap oid).icon toReplace]
          heap := heapUpdate s.heap oid { s.heap oid with identifier := some nid }
          current_notifications :=
            dequeAppend s.notification_limit s.current_notifications oid
          notification_for_nid := dictInsert s.notification_for_nid nid oid },
        none)

/-- `DesktopNotifierBase.send` (base.py lines 140-173).  `outcome` is the
behaviour of the backend `_send` at this call.  When the deque is at capacity
and empty (limit 0), `popleft` raises an `IndexError` that propagates. -/
def DesktopNotifierBase.send (s : DesktopNotifierBase) (oid : Nat)
    (outcome : SendOutcome) : DesktopNotifierBase × Option PyErr :=
  if atCapacity (iconStep s oid) then
    match (iconStep s oid).current_notifications with
    | [] => (iconStep s oid, some PyErr.indexError)
    | r :: rest =>
        sendBackendStep { iconStep s oid with current_notifications := rest }
          oid (some r) outcome
  else
    sendBackendStep (iconStep s oid) oid none outcome

/-- `DesktopNotifierBase._clear_notification_from_cache` (base.py lines
175-189): remove from the deque (`ValueError` swallowed), and, only when the
identifier is truthy, pop it from the dict (`KeyError` swallowed). -/
def DesktopNotifierBase.clearNotificationFromCache (s : DesktopNotifierBase)
    (oid : Nat) : DesktopNotifierBase :=
  match (s.heap oid).identifier with
  | some k =>
      if k.truthy then
        { s with
            current_notifications := s.current_notifications.erase oid
            notification_for_nid := dictErase s.notification_for_nid k }
      else { s with current_notifications := s.current_notifications.erase oid }
  | none => { s with current_notifications := s.current_notifications.erase oid }

/-- `DesktopNotifierBase.clear` (base.py lines 218-231): when the identifier
is truthy, call the backend `_clear`; an exception from it propagates and the
cache cleanup is skipped.  Otherwise (and on backend success) remove the
notification from the cache. -/
def DesktopNotifierBase.clear (s : DesktopNotifierBase) (oid : Nat)
    (backendFails : Bool) : DesktopNotifierBase × Option PyErr :=
  if identifierTruthy (s.heap oid).identifier then
    if backendFails then
      ({ s with backendCalls := s.backendCalls ++ [BackendCall.clear oid] },
        some PyErr.backendError)
    else
      (DesktopNotifierBase.clearNotificationFromCache
        { s with backendCalls := s.backendCalls ++ [BackendCall.clear oid] } oid,
        none)
  else
    (DesktopNotifierBase.clearNotificationFromCache s oid, none)

/-- `DesktopNotifierBase.clear_all` (base.py lines 242-252): call the backend
`_clear_all` first; an exception from it propagates and the local registry is
left untouched.  On success both structures are emptied. -/
def DesktopNotifierBase.clear_all (s : DesktopNotifierBase) (backendFails : Bool) :
    DesktopNotifierBase × Option PyErr :=
  if backendFails then
    ({ s with backendCalls := s.backendCalls ++ [BackendCall.clearAll] },
      some PyErr.backendError)
  else
    ({ s with
        backendCalls := s.backendCalls ++ [BackendCall.clearAll]
        current_notifications := []
        notification_for_nid := [] },
      none)

/-- One orchestrator operation together with the backend behaviour it meets:
the operations a notifier state can undergo (send, clear, clear_all, and the
out-of-band cache removal performed by backends). -/
inductive Op
  | send (oid : Nat) (outcome : SendOutcome)
  | clear (oid : Nat) (backendFails : Bool)
  | clear_all (backendFails : Bool)
  | cacheRemove (oid : Nat)

/-- Run one operation, keeping the state even when the operation raises
(a caller that catches the exception observes exactly this state). -/
def runOp (s : DesktopNotifierBase) (op : Op) : DesktopNotifierBase :=
  match op with
  | .send oid outcome => (s.send oid outcome).1
  | .clear oid bf => (s.clear oid bf).1
  | .clear_all bf => (s.clear_all bf).1
  | .cacheRemove oid => s.clearNotificationFromCache oid

/-- Run a sequence of operations. -/
def runOps (s : DesktopNotifierBase) (ops : List Op) : DesktopNotifierBase :=
  ops.foldl runOp s

/-- Object ids of the notifications passed to `send` in an operation list. -/
def sentOids (ops : List Op) : List Nat :=
  ops.filterMap fun op =>
    match op with
    | .send oid _ => some oid
    | _ => none

/-- Platform ids returned by the successful backend sends in an operation
list. -/
def successNids (ops : List Op) : List Nid :=
  ops.filterMap fun op =>
    match op with
    | .send _ (.succeed nid) => some nid
    | _ => none

/-- Well-formed interaction: each notification object is sent at most once
and the backend returns pairwise distinct platform ids across successful
sends. -/
def wfOps (ops : List Op) : Prop :=
  (sentOids ops).Nodup ∧ (successNids ops).Nodup

/-- A sequence of sends that all succeed, given as (object id, platform id)
pairs. -/
def sendOps (ps : List (Nat × Nid)) : List Op :=
  ps.map fun p => Op.send p.1 (SendOutcome.succeed p.2)

/-- A concrete heap of freshly constructed notifications (identifier `None`,
icon unset), for concrete runs. -/
def exHeap : Nat → Notification :=
  fun _ => { title := "t", message := "m" }

/-! ### Dictionary lemmas -/

theorem dictLookup_insert_self (d : List (Nid × Nat)) (k : Nid) (v : Nat) :
    dictLookup (dictInsert d k v) k = some v := by
  induction d with
  | nil => simp [dictInsert, dictLookup]
  | cons p rest ih =>
      by_cases h : p.1 = k
      · simp [dictInsert, h, dictLookup]
      · simp [dictInsert, h, dictLookup, ih]

theorem dictLookup_insert_ne (d : List (Nid × Nat)) (k : Nid) (v : Nat) (q : Nid)
    (h : q ≠ k) : dictLookup (dictInsert d k v) q = dictLookup d q := by
  have hk : k ≠ q := Ne.symm h
  induction d with
  | nil => simp [dictInsert, dictLookup, hk]
  | cons p rest ih =>
      by_cases hp : p.1 = k
      · simp [dictInsert, hp, dictLookup, hk]
      · simp only [dictInsert, if_neg hp]
        by_cases hq : p.1 = q
        · simp [dictLookup, hq]
        · simp [dictLookup, hq, ih]

theorem dictLookup_erase_ne (d : List (Nid × Nat)) (k q : Nid) (h : q ≠ k) :
    dictLookup (dictErase d k) q = dictLookup d q := by
  induction d with
  | nil => simp [dictErase]
  | cons p rest ih =>
      by_cases hp : p.1 = k
      · simp [dictErase, hp, dictLookup, Ne.symm h]
      · simp only [dictErase, if_neg hp]
        by_cases hq : p.1 = q
        · simp [dictLookup, hq]
        · simp [dictLookup, hq, ih]

theorem dictLookup_eq_none_of_not_mem_keys (d : List (Nid × Nat)) (k : Nid)
    (h : k ∉ dictKeys d) : dictLookup d k = none := by
  induction d with
  | nil => rfl
  | cons p rest ih =>
      simp only [dictKeys, List.map_cons, List.mem_cons, not_or] at h
      have hp : p.1 ≠ k := Ne.symm h.1
      simp [dictLookup, hp, ih (by simpa [dictKeys] using h.2)]

theorem dictErase_of_lookup_none (d : List (Nid × Nat)) (k : Nid)
    (h : dictLookup d k = none) : dictErase d k = d := by
  induction d with
  | nil => rfl
  | cons p rest ih =>
      by_cases hp : p.1 = k
      · simp [dictLookup, hp] at h
      · simp only [dictLookup, if_neg hp] at h
        simp [dictErase, hp, ih h]

theorem dictLookup_erase_self (d : List (Nid × Nat)) (k : Nid)
    (h : (dictKeys d).Nodup) : dictLookup (dictErase d k) k = none := by
  induction d with
  | nil => rfl
  | cons p rest ih =>
      simp only [dictKeys, List.map_cons, List.nodup_cons] at h
      by_cases hp : p.1 = k
      · subst hp
        simpa [dictErase] using dictLookup_eq_none_of_not_mem_keys rest p.1 (by simpa [dictKeys] using h.1)
      · simp [dictErase, hp, dictLookup, ih (by simpa [dictKeys] using h.2)]

/-! ### Heap lemmas -/

theorem heapUpdate_self (h : Nat → Notification) (oid : Nat) (n : Notification) :
    heapUpdate h oid n oid = n := by simp [heapUpdate]

theorem heapUpdate_ne (h : Nat → Notification) (oid : Nat) (n : Notification)
    (o : Nat) (hne : o ≠ oid) : heapUpdate h oid n o = h o := by
  simp [heapUpdate, hne]

/-! ### Projection lemmas for the operations -/

theorem iconStep_current (s : DesktopNotifierBase) (oid : Nat) :
    (iconStep s oid).current_notifications = s.current_notifications := by
  unfold iconStep; split <;> rfl

theorem iconStep_dict (s : DesktopNotifierBase) (oid : Nat) :
    (iconStep s oid).notification_for_nid = s.notification_for_nid := by
  unfold iconStep; split <;> rfl

theorem iconStep_limit (s : DesktopNotifierBase) (oid : Nat) :
    (iconStep s oid).notification_limit = s.notification_limit := by
  unfold iconStep; split <;> rfl

theorem iconStep_log (s : DesktopNotifierBase) (oid : Nat) :
    (iconStep s oid).backendCalls = s.backendCalls := by
  unfold iconStep; split <;> rfl

theorem iconStep_app_icon (s : DesktopNotifierBase) (oid : Nat) :
    (iconStep s oid).app_icon = s.app_icon := by
  unfold iconStep; split <;> rfl

theorem iconStep_heap_id (s : DesktopNotifierBase) (oid o : Nat) :
    ((iconStep s oid).heap o).identifier = (s.heap o).identifier := by
  unfold iconStep
  split
  · by_cases h : o = oid
    · subst h; simp [heapUpdate_self]
    · simp [heapUpdate_ne _ _ _ _ h]
  · rfl

theorem iconStep_heap_icon_self (s : DesktopNotifierBase) (oid : Nat) :
    ((iconStep s oid).heap oid).icon =
      if strOptFalsy (s.heap oid).icon then s.app_icon else (s.heap oid).icon := by
  unfold iconStep
  split
  · simp [heapUpdate_self]
  · rfl

theorem cacheRemove_heap (s : DesktopNotifierBase) (oid : Nat) :
    (s.clearNotificationFromCache oid).heap = s.heap := by
  unfold DesktopNotifierBase.clearNotificationFromCache
  split <;> first | (split <;> rfl) | rfl

theorem cacheRemove_limit (s : DesktopNotifierBase) (oid : Nat) :
    (s.clearNotificationFromCache oid).notification_limit = s.notification_limit := by
  unfold DesktopNotifierBase.clearNotificationFromCache
  split <;> first | (split <;> rfl) | rfl

theorem cacheRemove_log (s : DesktopNotifierBase) (oid : Nat) :
    (s.clearNotificationFromCache oid).backendCalls = s.backendCalls := by
  unfold DesktopNotifierBase.clearNotificationFromCache
  split <;> first | (split <;> rfl) | rfl

theorem cacheRemove_current (s : DesktopNotifierBase) (oid : Nat) :
    (s.clearNotificationFromCache oid).current_notifications =
      s.current_notifications.erase oid := by
  unfold DesktopNotifierBase.clearNotificationFromCache
  split <;> first | (split <;> rfl) | rfl

theorem clear_heap (s : DesktopNotifierBase) (oid : Nat) (bf : Bool) :
    (s.clear oid bf).1.heap = s.heap := by
  unfold DesktopNotifierBase.clear
  split
  · split
    · rfl
    · rw [cacheRemove_heap]
  · rw [cacheRemove_heap]

theorem clear_limit (s : DesktopNotifierBase) (oid : Nat) (bf : Bool) :
    (s.clear oid bf).1.notification_limit = s.notification_limit := by
  unfold DesktopNotifierBase.clear
  split
  · split
    · rfl
    · rw [cacheRemove_limit]
  · rw [cacheRemove_limit]

theorem clear_all_heap (s : DesktopNotifierBase) (bf : Bool) :
    (s.clear_all bf).1.heap = s.heap := by
  unfold DesktopNotifierBase.clear_all
  split <;> rfl

theorem clear_all_limit (s : DesktopNotifierBase) (bf : Bool) :
    (s.clear_all bf).1.notification_limit = s.notification_limit := by
  unfold DesktopNotifierBase.clear_all
  split <;> rfl

theorem sendBackendStep_limit (s : DesktopNotifierBase) (oid : Nat)
    (toReplace : Option Nat) (outcome : SendOutcome) :
    (sendBackendStep s oid toReplace outcome).1.notification_limit =
      s.notification_limit := by
  unfold sendBackendStep
  cases outcome with
  | fail => cases toReplace <;> rfl
  | succeed nid => rfl

theorem send_limit (s : DesktopNotifierBase) (oid : Nat) (outcome : SendOutcome) :
    (s.send oid outcome).1.notification_limit = s.notification_limit := by
  unfold DesktopNotifierBase.send
  split
  · split
    · exact iconStep_limit s oid
    · rw [sendBackendStep_limit]; exact iconStep_limit s oid
  · rw [sendBackendStep_limit]; exact iconStep_limit s oid

theorem runOp_limit (s : DesktopNotifierBase) (op : Op) :
    (runOp s op).notification_limit = s.notification_limit := by
  cases op with
  | send oid outcome => exact send_limit s oid outcome
  | clear oid bf => exact clear_limit s oid bf
  | clear_all bf => exact clear_all_limit s bf
  | cacheRemove oid => exact cacheRemove_limit s oid

theorem runOps_limit (ops : List Op) :
    ∀ s : DesktopNotifierBase, (runOps s ops).notification_limit = s.notification_limit := by
  induction ops with
  | nil => intro s; rfl
  | cons op rest ih =>
      intro s
      show (runOps (runOp s op) rest).notification_limit = _
      rw [ih (runOp s op), runOp_limit]

theorem atCapacity_true_iff (s : DesktopNotifierBase) :
    atCapacity s = true ↔
      ∃ n, s.notification_limit = some n ∧ s.current_notifications.length = n := by
  unfold atCapacity
  cases h : s.notification_limit with
  | none => simp
  | some n => simp

/-! ### The rollback on a failed send (base.py lines 162-169) -/

theorem send_fail_state (s : DesktopNotifierBase) (oid : Nat) :
    (s.send oid SendOutcome.fail).1.current_notifications = s.current_notifications ∧
    (s.send oid SendOutcome.fail).1.notification_for_nid = s.notification_for_nid ∧
    (s.send oid SendOutcome.fail).1.heap = (iconStep s oid).heap := by
  unfold DesktopNotifierBase.send
  cases hC : atCapacity (iconStep s oid) with
  | false =>
      simp only [Bool.false_eq_true, if_false, sendBackendStep]
      refine ⟨iconStep_current s oid, iconStep_dict s oid, ?_⟩
      trivial
  | true =>
      simp only [if_true]
      cases hL : (iconStep s oid).current_notifications with
      | nil =>
          refine ⟨iconStep_current s oid, iconStep_dict s oid, ?_⟩
          trivial
      | cons r rest =>
          simp only [sendBackendStep]
          obtain ⟨n, hn, hlen⟩ := (atCapacity_true_iff _).1 hC
          rw [hL] at hlen
          refine ⟨?_, iconStep_dict s oid, ?_⟩
          · show dequeAppendLeft (iconStep s oid).notification_limit rest r =
              s.current_notifications
            rw [hn]
            show (r :: rest).take n = s.current_notifications
            rw [List.take_of_length_le (le_of_eq hlen), ← hL]
            exact iconStep_current s oid
          · trivial

/-! ### Effect of each operation on notification identifiers -/

theorem send_heap_id_ne (s : DesktopNotifierBase) (oid : Nat) (outcome : SendOutcome)
    (o : Nat) (hne : o ≠ oid) :
    ((s.send oid outcome).1.heap o).identifier = (s.heap o).identifier := by
  unfold DesktopNotifierBase.send
  cases hC : atCapacity (iconStep s oid) with
  | false =>
      simp only [Bool.false_eq_true, if_false]
      cases outcome with
      | fail => simp only [sendBackendStep]; exact iconStep_heap_id s oid o
      | succeed nid =>
          simp only [sendBackendStep]
          show ((heapUpdate (iconStep s oid).heap oid _) o).identifier = _
          rw [heapUpdate_ne _ _ _ _ hne]; exact iconStep_heap_id s oid o
  | true =>
      simp only [if_true]
      cases hL : (iconStep s oid).current_notifications with
      | nil => exact iconStep_heap_id s oid o
      | cons r rest =>
          cases outcome with
          | fail => simp only [sendBackendStep]; exact iconStep_heap_id s oid o
          | succeed nid =>
              simp only [sendBackendStep]
              show ((heapUpdate (iconStep s oid).heap oid _) o).identifier = _
              rw [heapUpdate_ne _ _ _ _ hne]; exact iconStep_heap_id s oid o

theorem send_heap_id_self (s : DesktopNotifierBase) (oid : Nat) (outcome : SendOutcome) :
    ((s.send oid outcome).1.heap oid).identifier = (s.heap oid).identifier ∨
    ∃ nid, outcome = SendOutcome.succeed nid ∧
      ((s.send oid outcome).1.heap oid).identifier = some nid := by
  unfold DesktopNotifierBase.send
  cases hC : atCapacity (iconStep s oid) with
  | false =>
      simp only [Bool.false_eq_true, if_false]
      cases outcome with
      | fail => exact Or.inl (by simp only [sendBackendStep]; exact iconStep_heap_id s oid oid)
      | succeed nid =>
          refine Or.inr ⟨nid, rfl, ?_⟩
          simp only [sendBackendStep]
          show ((heapUpdate (iconStep s oid).heap oid _) oid).identifier = some nid
          rw [heapUpdate_self]
  | true =>
      simp only [if_true]
      cases hL : (iconStep s oid).current_notifications with
      | nil => exact Or.inl (iconStep_heap_id s oid oid)
      | cons r rest =>
          cases outcome with
          | fail => exact Or.inl (by simp only [sendBackendStep]; exact iconStep_heap_id s oid oid)
          | succeed nid =>
              refine Or.inr ⟨nid, rfl, ?_⟩
              simp only [sendBackendStep]
              show ((heapUpdate (iconStep s oid).heap oid _) oid).identifier = some nid
              rw [heapUpdate_self]

theorem runOp_heap_id (s : DesktopNotifierBase) (op : Op) (o : Nat) :
    ((runOp s op).heap o).identifier = (s.heap o).identifier ∨
    ∃ oid nid, op = Op.send oid (SendOutcome.succeed nid) ∧ o = oid ∧
      ((runOp s op).heap o).identifier = some nid := by
  cases op with
  | send oid outcome =>
      by_cases he : o = oid
      · subst he
        rcases send_heap_id_self s o outcome with h | ⟨nid, ho, h⟩
        · exact Or.inl h
        · exact Or.inr ⟨o, nid, by rw [ho], rfl, h⟩
      · exact Or.inl (send_heap_id_ne s oid outcome o he)
  | clear oid bf => exact Or.inl (by simp only [runOp]; rw [clear_heap])
  | clear_all bf => exact Or.inl (by simp only [runOp]; rw [clear_all_heap])
  | cacheRemove oid => exact Or.inl (by simp only [runOp]; rw [cacheRemove_heap])

/-! ### The registry invariant (claim C1) -/

/-- The part of the spec's registry invariant that the code maintains: the
deque has no duplicate entries, identifiers are assigned injectively, and
every notification in the deque carries an identifier under which the dict
maps back to it. -/
def registryInv (s : DesktopNotifierBase) : Prop :=
  s.current_notifications.Nodup ∧
  (∀ o1 o2 k, (s.heap o1).identifier = some k → (s.heap o2).identifier = some k →
    o1 = o2) ∧
  (∀ oid, oid ∈ s.current_notifications →
    ∃ k, (s.heap oid).identifier = some k ∧
      dictLookup s.notification_for_nid k = some oid)

theorem cacheRemove_dict (s : DesktopNotifierBase) (oid : Nat) :
    (s.clearNotificationFromCache oid).notification_for_nid =
      match (s.heap oid).identifier with
      | some k =>
          if k.truthy then dictErase s.notification_for_nid k
          else s.notification_for_nid
      | none => s.notification_for_nid := by
  unfold DesktopNotifierBase.clearNotificationFromCache
  split
  · split <;> simp_all
  · simp_all

theorem registryInv_iconStep (s : DesktopNotifierBase) (oid : Nat)
    (h : registryInv s) : registryInv (iconStep s oid) := by
  obtain ⟨h1, h2, h3⟩ := h
  refine ⟨?_, ?_, ?_⟩
  · rw [iconStep_current]; exact h1
  · intro o1 o2 k hk1 hk2
    rw [iconStep_heap_id] at hk1 hk2
    exact h2 o1 o2 k hk1 hk2
  · intro o ho
    rw [iconStep_current] at ho
    obtain ⟨k, hk, hl⟩ := h3 o ho
    exact ⟨k, by rw [iconStep_heap_id]; exact hk, by rw [iconStep_dict]; exact hl⟩

theorem registryInv_cacheRemove (s : DesktopNotifierBase) (oid : Nat)
    (h : registryInv s) : registryInv (s.clearNotificationFromCache oid) := by
  obtain ⟨h1, h2, h3⟩ := h
  refine ⟨?_, ?_, ?_⟩
  · rw [cacheRemove_current]; exact h1.erase oid
  · intro o1 o2 k hk1 hk2
    rw [cacheRemove_heap] at hk1 hk2
    exact h2 o1 o2 k hk1 hk2
  · intro o ho
    rw [cacheRemove_current] at ho
    obtain ⟨hne, hmem⟩ := h1.mem_erase_iff.mp ho
    obtain ⟨k, hk, hl⟩ := h3 o hmem
    refine ⟨k, by rw [cacheRemove_heap]; exact hk, ?_⟩
    rw [cacheRemove_dict]
    cases hoid : (s.heap oid).identifier with
    | none => exact hl
    | some k0 =>
        by_cases ht : k0.truthy
        · simp only [ht, if_true]
          have hkk : k ≠ k0 := by
            intro e
            exact hne (h2 o oid k0 (e ▸ hk) hoid)
          rw [dictLookup_erase_ne _ _ _ hkk]
          exact hl
        · simp only [ht, if_false]
          exact hl

theorem registryInv_clear (s : DesktopNotifierBase) (oid : Nat) (bf : Bool)
    (h : registryInv s) : registryInv (s.clear oid bf).1 := by
  unfold DesktopNotifierBase.clear
  split
  · split
    · exact h
    · exact registryInv_cacheRemove _ oid h
  · exact registryInv_cacheRemove _ oid h

theorem registryInv_clear_all (s : DesktopNotifierBase) (bf : Bool)
    (h : registryInv s) : registryInv (s.clear_all bf).1 := by
  unfold DesktopNotifierBase.clear_all
  split
  · exact h
  · exact ⟨List.nodup_nil, h.2.1, by intro o ho; cases ho⟩

theorem registryInv_commit (s2 : DesktopNotifierBase) (oid : Nat) (nid : Nid)
    (toR : Option Nat) (hinv : registryInv s2)
    (hfresh : ∀ o, (s2.heap o).identifier ≠ some nid)
    (hnone : (s2.heap oid).identifier = none) :
    registryInv (sendBackendStep s2 oid toR (SendOutcome.succeed nid)).1 := by
  obtain ⟨h1, h2, h3⟩ := hinv
  have hoid_notmem : oid ∉ s2.current_notifications := by
    intro hmem
    obtain ⟨k, hk, _⟩ := h3 oid hmem
    rw [hnone] at hk
    cases hk
  simp only [sendBackendStep]
  refine ⟨?_, ?_, ?_⟩
  · show (dequeAppend s2.notification_limit s2.current_notifications oid).Nodup
    have hap : (s2.current_notifications ++ [oid]).Nodup := by
      rw [List.nodup_append]
      refine ⟨h1, List.nodup_singleton oid, ?_⟩
      intro a ha hb
      rw [List.mem_singleton] at hb
      subst hb
      exact hoid_notmem ha
    unfold dequeAppend
    cases s2.notification_limit with
    | none => exact hap
    | some n => exact (List.drop_sublist _ _).nodup hap
  · intro o1 o2 k hk1 hk2
    show o1 = o2
    by_cases e1 : o1 = oid <;> by_cases e2 : o2 = oid
    · rw [e1, e2]
    · exfalso
      subst e1
      change ((heapUpdate s2.heap o1 _ o1).identifier = some k) at hk1
      rw [heapUpdate_self] at hk1
      change ((heapUpdate s2.heap o1 _ o2).identifier = some k) at hk2
      rw [heapUpdate_ne _ _ _ _ e2] at hk2
      cases hk1
      exact hfresh o2 hk2
    · exfalso
      subst e2
      change ((heapUpdate s2.heap o2 _ o2).identifier = some k) at hk2
      rw [heapUpdate_self] at hk2
      change ((heapUpdate s2.heap o2 _ o1).identifier = some k) at hk1
      rw [heapUpdate_ne _ _ _ _ e1] at hk1
      cases hk2
      exact hfresh o1 hk1
    · change ((heapUpdate s2.heap oid _ o1).identifier = some k) at hk1
      change ((heapUpdate s2.heap oid _ o2).identifier = some k) at hk2
      rw [heapUpdate_ne _ _ _ _ e1] at hk1
      rw [heapUpdate_ne _ _ _ _ e2] at hk2
      exact h2 o1 o2 k hk1 hk2
  · intro o ho
    change o ∈ dequeAppend s2.notification_limit s2.current_notifications oid at ho
    have ho2 : o ∈ s2.current_notifications ++ [oid] := by
      revert ho
      unfold dequeAppend
      cases s2.notification_limit with
      | none => exact id
      | some n => exact fun h => List.drop_subset _ _ h
    rcases List.mem_append.mp ho2 with hmem | hsing
    · have hono : o ≠ oid := fun e => hoid_notmem (e ▸ hmem)
      obtain ⟨k, hk, hl⟩ := h3 o hmem
      refine ⟨k, ?_, ?_⟩
      · change (heapUpdate s2.heap oid _ o).identifier = some k
        rw [heapUpdate_ne _ _ _ _ hono]
        exact hk
      · have hkne : k ≠ nid := fun e => hfresh o (e ▸ hk)
        change dictLookup (dictInsert s2.notification_for_nid nid oid) k = some o
        rw [dictLookup_insert_ne _ _ _ _ hkne]
        exact hl
    · rw [List.mem_singleton] at hsing
      subst hsing
      refine ⟨nid, ?_, ?_⟩
      · change (heapUpdate s2.heap o _ o).identifier = some nid
        rw [heapUpdate_self]
      · change dictLookup (dictInsert s2.notification_for_nid nid o) nid = some o
        exact dictLookup_insert_self _ _ _

theorem registryInv_send_succeed (s : DesktopNotifierBase) (oid : Nat) (nid : Nid)
    (hinv : registryInv s)
    (hfresh : ∀ o, (s.heap o).identifier ≠ some nid)
    (hnone : (s.heap oid).identifier = none) :
    registryInv (s.send oid (SendOutcome.succeed nid)).1 := by
  have hinv1 : registryInv (iconStep s oid) := registryInv_iconStep s oid hinv
  have hfresh1 : ∀ o, ((iconStep s oid).heap o).identifier ≠ some nid := by
    intro o
    rw [iconStep_heap_id]
    exact hfresh o
  have hnone1 : ((iconStep s oid).heap oid).identifier = none := by
    rw [iconStep_heap_id]
    exact hnone
  unfold DesktopNotifierBase.send
  cases hC : atCapacity (iconStep s oid) with
  | false =>
      simp only [Bool.false_eq_true, if_false]
      exact registryInv_commit _ oid nid none hinv1 hfresh1 hnone1
  | true =>
      simp only [if_true]
      cases hL : (iconStep s oid).current_notifications with
      | nil => exact hinv1
      | cons r rest =>
          apply registryInv_commit
          · obtain ⟨h1, h2, h3⟩ := hinv1
            rw [hL] at h1 h3
            exact ⟨h1.of_cons, h2, fun o ho => h3 o (List.mem_cons_of_mem r ho)⟩
          · exact hfresh1
          · exact hnone1

theorem registryInv_send_fail (s : DesktopNotifierBase) (oid : Nat)
    (hinv : registryInv s) : registryInv (s.send oid SendOutcome.fail).1 := by
  obtain ⟨hcur, hdict, hheap⟩ := send_fail_state s oid
  obtain ⟨h1, h2, h3⟩ := hinv
  refine ⟨?_, ?_, ?_⟩
  · rw [hcur]; exact h1
  · intro o1 o2 k hk1 hk2
    rw [hheap] at hk1 hk2
    rw [iconStep_heap_id] at hk1 hk2
    exact h2 o1 o2 k hk1 hk2
  · intro o ho
    rw [hcur] at ho
    obtain ⟨k, hk, hl⟩ := h3 o ho
    refine ⟨k, ?_, ?_⟩
    · rw [hheap, iconStep_heap_id]; exact hk
    · rw [hdict]; exact hl

theorem registryInv_runOp (s : DesktopNotifierBase) (op : Op)
    (hinv : registryInv s)
    (hfresh : ∀ oid nid, op = Op.send oid (SendOutcome.succeed nid) →
      (∀ o, (s.heap o).identifier ≠ some nid) ∧ (s.heap oid).identifier = none) :
    registryInv (runOp s op) := by
  cases op with
  | send oid outcome =>
      cases outcome with
      | fail => exact registryInv_send_fail s oid hinv
      | succeed nid =>
          obtain ⟨hf, hn⟩ := hfresh oid nid rfl
          exact registryInv_send_succeed s oid nid hinv hf hn
  | clear oid bf => exact registryInv_clear s oid bf hinv
  | clear_all bf => exact registryInv_clear_all s bf hinv
  | cacheRemove oid => exact registryInv_cacheRemove s oid hinv

/-! ### Threading freshness through an operation sequence -/

/-- Freshness of an operation list with respect to a state: every object yet
to be sent is still unsent, and every platform id yet to be returned by the
backend is not the identifier of any object. -/
def freshFor (s : DesktopNotifierBase) (ops : List Op) : Prop :=
  (∀ oid ∈ sentOids ops, (s.heap oid).identifier = none) ∧
  (∀ nid ∈ successNids ops, ∀ o, (s.heap o).identifier ≠ some nid)

theorem sentOids_tail_subset (op : Op) (rest : List Op) :
    sentOids rest ⊆ sentOids (op :: rest) := by
  cases op with
  | send oid outcome =>
      show sentOids rest ⊆ oid :: sentOids rest
      exact List.subset_cons_self oid _
  | clear oid bf => exact Set.Subset.refl _
  | clear_all bf => exact Set.Subset.refl _
  | cacheRemove oid => exact Set.Subset.refl _

theorem successNids_tail_subset (op : Op) (rest : List Op) :
    successNids rest ⊆ successNids (op :: rest) := by
  cases op with
  | send oid outcome =>
      cases outcome with
      | fail => exact Set.Subset.refl _
      | succeed nid =>
          show successNids rest ⊆ nid :: successNids rest
          exact List.subset_cons_self nid _
  | clear oid bf => exact Set.Subset.refl _
  | clear_all bf => exact Set.Subset.refl _
  | cacheRemove oid => exact Set.Subset.refl _

theorem sentOids_tail_nodup (op : Op) (rest : List Op)
    (h : (sentOids (op :: rest)).Nodup) : (sentOids rest).Nodup := by
  cases op with
  | send oid outcome => exact (List.nodup_cons.mp h).2
  | clear oid bf => exact h
  | clear_all bf => exact h
  | cacheRemove oid => exact h

theorem successNids_tail_nodup (op : Op) (rest : List Op)
    (h : (successNids (op :: rest)).Nodup) : (successNids rest).Nodup := by
  cases op with
  | send oid outcome =>
      cases outcome with
      | fail => exact h
      | succeed nid => exact (List.nodup_cons.mp h).2
  | clear oid bf => exact h
  | clear_all bf => exact h
  | cacheRemove oid => exact h

theorem freshFor_tail (s : DesktopNotifierBase) (op : Op) (rest : List Op)
    (hf : freshFor s (op :: rest))
    (hs : (sentOids (op :: rest)).Nodup)
    (hn : (successNids (op :: rest)).Nodup) :
    freshFor (runOp s op) rest := by
  obtain ⟨hf1, hf2⟩ := hf
  constructor
  · intro oid hoid
    rcases runOp_heap_id s op oid with h | ⟨oid2, nid2, hop, he, hid⟩
    · rw [h]
      exact hf1 oid (sentOids_tail_subset op rest hoid)
    · exfalso
      subst hop
      subst he
      exact (List.nodup_cons.mp hs).1 hoid
  · intro nid hnid o
    rcases runOp_heap_id s op o with h | ⟨oid2, nid2, hop, he, hid⟩
    · rw [h]
      exact hf2 nid (successNids_tail_subset op rest hnid) o
    · rw [hid]
      subst hop
      intro he2
      injection he2 with he2
      subst he2
      exact (List.nodup_cons.mp hn).1 hnid

theorem registryInv_runOps (ops : List Op) :
    ∀ s : DesktopNotifierBase, registryInv s → freshFor s ops →
      (sentOids ops).Nodup → (successNids ops).Nodup →
      registryInv (runOps s ops) := by
  induction ops with
  | nil => exact fun s h _ _ _ => h
  | cons op rest ih =>
      intro s hinv hf hs hn
      show registryInv (runOps (runOp s op) rest)
      refine ih (runOp s op) ?_ (freshFor_tail s op rest hf hs hn)
        (sentOids_tail_nodup op rest hs) (successNids_tail_nodup op rest hn)
      apply registryInv_runOp s op hinv
      intro oid nid hop
      subst hop
      exact ⟨hf.2 nid (List.mem_cons_self nid _) , hf.1 oid (List.mem_cons_self oid _)⟩

/-! ### The capacity bound (claim C3) -/

theorem dequeAppend_length_le (n : Nat) (d : List Nat) (x : Nat) :
    (dequeAppend (some n) d x).length ≤ n := by
  unfold dequeAppend
  rw [List.length_drop, List.length_append]
  simp only [List.length_singleton]
  omega

theorem dequeAppendLeft_length_le (n : Nat) (d : List Nat) (x : Nat) :
    (dequeAppendLeft (some n) d x).length ≤ n := by
  unfold dequeAppendLeft
  rw [List.length_take]
  exact min_le_left n _

theorem send_len (s : DesktopNotifierBase) (oid : Nat) (outcome : SendOutcome)
    (n : Nat) (hlim : s.notification_limit = some n)
    (h : s.current_notifications.length ≤ n) :
    (s.send oid outcome).1.current_notifications.length ≤ n := by
  have hlim1 : (iconStep s oid).notification_limit = some n := by
    rw [iconStep_limit, hlim]
  have hcur1 : (iconStep s oid).current_notifications = s.current_notifications :=
    iconStep_current s oid
  unfold DesktopNotifierBase.send
  cases hC : atCapacity (iconStep s oid) with
  | false =>
      simp only [Bool.false_eq_true, if_false]
      cases outcome with
      | fail =>
          simp only [sendBackendStep]
          rw [hcur1]
          exact h
      | succeed nid =>
          simp only [sendBackendStep]
          show (dequeAppend (iconStep s oid).notification_limit
            (iconStep s oid).current_notifications oid).length ≤ n
          rw [hlim1]
          exact dequeAppend_length_le n _ oid
  | true =>
      simp only [if_true]
      cases hL : (iconStep s oid).current_notifications with
      | nil =>
          rw [hcur1] at hL
          show (iconStep s oid).current_notifications.length ≤ n
          rw [hcur1, hL]
          exact Nat.zero_le n
      | cons r rest =>
          cases outcome with
          | fail =>
              simp only [sendBackendStep]
              show (dequeAppendLeft (iconStep s oid).notification_limit rest r).length ≤ n
              rw [hlim1]
              exact dequeAppendLeft_length_le n rest r
          | succeed nid =>
              simp only [sendBackendStep]
              show (dequeAppend (iconStep s oid).notification_limit rest oid).length ≤ n
              rw [hlim1]
              exact dequeAppend_length_le n rest oid

theorem clear_current_sublist (s : DesktopNotifierBase) (oid : Nat) (bf : Bool) :
    ((s.clear oid bf).1.current_notifications).Sublist s.current_notifications := by
  unfold DesktopNotifierBase.clear
  split
  · split
    · exact List.Sublist.refl _
    · rw [cacheRemove_current]
      exact List.erase_sublist oid _
  · rw [cacheRemove_current]
    exact List.erase_sublist oid _

theorem runOp_len (s : DesktopNotifierBase) (op : Op) (n : Nat)
    (hlim : s.notification_limit = some n)
    (h : s.current_notifications.length ≤ n) :
    (runOp s op).current_notifications.length ≤ n := by
  cases op with
  | send oid outcome => exact send_len s oid outcome n hlim h
  | clear oid bf =>
      exact le_trans ((clear_current_sublist s oid bf).length_le) h
  | clear_all bf =>
      show ((s.clear_all bf).1.current_notifications).length ≤ n
      unfold DesktopNotifierBase.clear_all
      split
      · exact h
      · exact Nat.zero_le n
  | cacheRemove oid =>
      show ((s.clearNotificationFromCache oid).current_notifications).length ≤ n
      rw [cacheRemove_current]
      exact le_trans (List.erase_sublist oid _).length_le h

theorem runOps_len (ops : List Op) :
    ∀ (s : DesktopNotifierBase) (n : Nat), s.notification_limit = some n →
      s.current_notifications.length ≤ n →
      (runOps s ops).current_notifications.length ≤ n := by
  induction ops with
  | nil => exact fun s n _ h => h
  | cons op rest ih =>
      intro s n hlim h
      show (runOps (runOp s op) rest).current_notifications.length ≤ n
      exact ih (runOp s op) n (by rw [runOp_limit, hlim]) (runOp_len s op n hlim h)

/-! ### The FIFO sliding window of successful sends (claim C3) -/

theorem send_succeed_deque (s : DesktopNotifierBase) (oid : Nat) (nid : Nid)
    (n : Nat) (hlim : s.notification_limit = some n) (hn : 1 ≤ n)
    (hlen : s.current_notifications.length ≤ n) :
    (s.send oid (SendOutcome.succeed nid)).1.current_notifications =
      (s.current_notifications ++ [oid]).drop
        (s.current_notifications.length + 1 - n) := by
  have hlim1 : (iconStep s oid).notification_limit = some n := by
    rw [iconStep_limit, hlim]
  have hcur1 : (iconStep s oid).current_notifications = s.current_notifications :=
    iconStep_current s oid
  unfold DesktopNotifierBase.send
  cases hC : atCapacity (iconStep s oid) with
  | false =>
      simp only [Bool.false_eq_true, if_false, sendBackendStep]
      show dequeAppend (iconStep s oid).notification_limit
        (iconStep s oid).current_notifications oid = _
      rw [hlim1, hcur1]
      rfl
  | true =>
      obtain ⟨m, hm, hlenm⟩ := (atCapacity_true_iff _).1 hC
      rw [hlim1] at hm
      injection hm with hm
      subst hm
      rw [hcur1] at hlenm
      simp only [if_true]
      cases hL : (iconStep s oid).current_notifications with
      | nil =>
          exfalso
          rw [hcur1] at hL
          rw [hL] at hlenm
          simp at hlenm
          omega
      | cons r rest =>
          simp only [sendBackendStep]
          show dequeAppend (iconStep s oid).notification_limit rest oid = _
          rw [hlim1]
          have hsc : s.current_notifications = r :: rest := by rw [← hcur1, hL]
          have hr : rest.length + 1 = n := by
            rw [hsc] at hlenm
            simpa using hlenm
          rw [hsc]
          have h1 : rest.length + 1 - n = 0 := by omega
          have h2 : (r :: rest).length + 1 - n = 1 := by
            simp only [List.length_cons]
            omega
          show (rest ++ [oid]).drop (rest.length + 1 - n) =
            ((r :: rest) ++ [oid]).drop ((r :: rest).length + 1 - n)
          rw [h1, h2, List.drop_zero, List.cons_append, List.drop_one, List.tail_cons]

theorem runOps_sendOps_deque (ps : List (Nat × Nid)) :
    ∀ (s : DesktopNotifierBase) (n : Nat), s.notification_limit = some n → 1 ≤ n →
      s.current_notifications.length ≤ n →
      (runOps s (sendOps ps)).current_notifications =
        (s.current_notifications ++ ps.map Prod.fst).drop
          (s.current_notifications.length + ps.length - n) := by
  induction ps with
  | nil =>
      intro s n hlim hn hlen
      show s.current_notifications = _
      simp only [List.map_nil, List.append_nil, List.length_nil, Nat.add_zero]
      rw [Nat.sub_eq_zero_of_le hlen, List.drop_zero]
  | cons p ps ih =>
      intro s n hlim hn hlen
      show (runOps ((s.send p.1 (SendOutcome.succeed p.2)).1) (sendOps ps)).current_notifications = _
      have hlim1 : (s.send p.1 (SendOutcome.succeed p.2)).1.notification_limit = some n := by
        rw [send_limit, hlim]
      have hd : (s.send p.1 (SendOutcome.succeed p.2)).1.current_notifications =
          (s.current_notifications ++ [p.1]).drop
            (s.current_notifications.length + 1 - n) :=
        send_succeed_deque s p.1 p.2 n hlim hn hlen
      have hlen1 : (s.send p.1 (SendOutcome.succeed p.2)).1.current_notifications.length ≤ n := by
        rw [hd, List.length_drop, List.length_append]
        simp only [List.length_singleton]
        omega
      rw [ih _ n hlim1 hn hlen1, hd]
      have hkA : s.current_notifications.length + 1 - n ≤
          (s.current_notifications ++ [p.1]).length := by
        rw [List.length_append, List.length_singleton]
        omega
      rw [← List.drop_append_of_le_length hkA, List.drop_drop]
      have hAB : (s.current_notifications ++ [p.1]) ++ ps.map Prod.fst =
          s.current_notifications ++ (p :: ps).map Prod.fst := by
        rw [List.map_cons, List.append_assoc, List.singleton_append]
      rw [hAB]
      congr 1
      rw [List.length_drop, List.length_append, List.length_singleton,
        List.length_cons]
      omega

/-! ### Additional characterization of send results -/

theorem send_result_cases (s : DesktopNotifierBase) (oid : Nat) (outcome : SendOutcome) :
    (s.send oid outcome).2 = none ∨
    ((s.send oid outcome).2 = some PyErr.indexError ∧
      (s.send oid outcome).1 = iconStep s oid) := by
  unfold DesktopNotifierBase.send
  cases hC : atCapacity (iconStep s oid) with
  | false =>
      simp only [Bool.false_eq_true, if_false]
      left
      cases outcome with
      | fail => cases toR : (none : Option Nat) <;> simp [sendBackendStep]
      | succeed nid => simp [sendBackendStep]
  | true =>
      simp only [if_true]
      cases hL : (iconStep s oid).current_notifications with
      | nil => right; exact ⟨rfl, rfl⟩
      | cons r rest =>
          left
          cases outcome with
          | fail => simp [sendBackendStep]
          | succeed nid => simp [sendBackendStep]

/-! ### Claim theorems -/

/-- Claim C1, counterexample.  With limit 1, after two successful sends the
first notification (object id 0) has been evicted from
`current_notifications`, yet its entry under platform id 1 is still present
in `notification_for_nid`: the two structures are not removed as a unit, so
the claimed invariant fails at this reachable state. -/
theorem c1_counterexample :
    dictLookup (runOps (DesktopNotifierBase.init "app" none (some 1) exHeap)
        [Op.send 0 (SendOutcome.succeed (Nid.int 1)),
         Op.send 1 (SendOutcome.succeed (Nid.int 2))]).notification_for_nid
      (Nid.int 1) = some 0 ∧
    0 ∉ (runOps (DesktopNotifierBase.init "app" none (some 1) exHeap)
        [Op.send 0 (SendOutcome.succeed (Nid.int 1)),
         Op.send 1 (SendOutcome.succeed (Nid.int 2))]).current_notifications := by
  decide

/-- Claim C1, amended.  At every reachable state, provided each notification
object is sent at most once and the backend returns pairwise distinct
platform ids across successful sends, every notification present in
`current_notifications` has a non-absent identifier and appears in
`notification_by_id` under that identifier.  The converse direction of the
original claim is false (see the counterexample): `notification_by_id` may
retain entries for notifications evicted from `current_notifications` by a
successful send at capacity. -/
theorem c1_registry_coupling_amended (an : String) (ai : Option String)
    (lim : Option Nat) (h0 : Nat → Notification)
    (hinit : ∀ o, (h0 o).identifier = none)
    (ops : List Op) (hwf : wfOps ops) :
    ∀ oid ∈ (runOps (DesktopNotifierBase.init an ai lim h0) ops).current_notifications,
      ∃ k, ((runOps (DesktopNotifierBase.init an ai lim h0) ops).heap oid).identifier =
          some k ∧
        dictLookup (runOps (DesktopNotifierBase.init an ai lim h0)
          ops).notification_for_nid k = some oid := by
  have hinv : registryInv (DesktopNotifierBase.init an ai lim h0) := by
    refine ⟨List.nodup_nil, ?_, ?_⟩
    · intro o1 o2 k hk1 hk2
      rw [show ((DesktopNotifierBase.init an ai lim h0).heap o1).identifier =
        (h0 o1).identifier from rfl, hinit o1] at hk1
      cases hk1
    · intro o ho
      cases ho
  have hfresh : freshFor (DesktopNotifierBase.init an ai lim h0) ops := by
    constructor
    · intro oid _
      exact hinit oid
    · intro nid _ o
      show (h0 o).identifier ≠ some nid
      rw [hinit o]
      simp
  exact (registryInv_runOps ops _ hinv hfresh hwf.1 hwf.2).2.2

/-- Claim C1, witness for the amended theorem at a concrete run. -/
theorem c1_registry_coupling_witness :
    ∃ k, ((runOps (DesktopNotifierBase.init "app" none none exHeap)
          [Op.send 0 (SendOutcome.succeed (Nid.int 1))]).heap 0).identifier = some k ∧
      dictLookup (runOps (DesktopNotifierBase.init "app" none none exHeap)
        [Op.send 0 (SendOutcome.succeed (Nid.int 1))]).notification_for_nid k = some 0 :=
  c1_registry_coupling_amended "app" none none exHeap (fun _ => rfl)
    [Op.send 0 (SendOutcome.succeed (Nid.int 1))] (by constructor <;> decide) 0 (by decide)

/-- Claim C2: when the backend raises during `_send`, the deque and the dict
are unchanged from their pre-call values in contents and order (the
tentatively evicted oldest entry is re-inserted at the front), for every
state; and the spec scenario: limit 2, two successful sends then a failing
one leaves the registry as built by the first two sends. -/
theorem c2_send_failure_rollback :
    (∀ (s : DesktopNotifierBase) (oid : Nat),
      (s.send oid SendOutcome.fail).1.current_notifications =
        s.current_notifications ∧
      (s.send oid SendOutcome.fail).1.notification_for_nid =
        s.notification_for_nid) ∧
    ((runOps (DesktopNotifierBase.init "app" none (some 2) exHeap)
        [Op.send 0 (SendOutcome.succeed (Nid.int 1)),
         Op.send 1 (SendOutcome.succeed (Nid.int 2)),
         Op.send 2 SendOutcome.fail]).current_notifications = [0, 1] ∧
      dictLookup (runOps (DesktopNotifierBase.init "app" none (some 2) exHeap)
        [Op.send 0 (SendOutcome.succeed (Nid.int 1)),
         Op.send 1 (SendOutcome.succeed (Nid.int 2)),
         Op.send 2 SendOutcome.fail]).notification_for_nid (Nid.int 1) = some 0 ∧
      dictLookup (runOps (DesktopNotifierBase.init "app" none (some 2) exHeap)
        [Op.send 0 (SendOutcome.succeed (Nid.int 1)),
         Op.send 1 (SendOutcome.succeed (Nid.int 2)),
         Op.send 2 SendOutcome.fail]).notification_for_nid (Nid.int 2) = some 1 ∧
      dictKeys (runOps (DesktopNotifierBase.init "app" none (some 2) exHeap)
        [Op.send 0 (SendOutcome.succeed (Nid.int 1)),
         Op.send 1 (SendOutcome.succeed (Nid.int 2)),
         Op.send 2 SendOutcome.fail]).notification_for_nid =
        [Nid.int 1, Nid.int 2]) := by
  constructor
  · intro s oid
    exact ⟨(send_fail_state s oid).1, (send_fail_state s oid).2.1⟩
  · decide

/-- Claim C3, counterexample.  In the spec scenario (limit 2, three
successful sends with ids 1, 2, 3) the evicted notification A (object id 0)
is gone from `current_notifications` but still has its entry under id 1 in
the id-index, contradicting the claim that A has no entry in either
structure and that the id-index holds exactly the entries for B and C. -/
theorem c3_counterexample :
    dictLookup (runOps (DesktopNotifierBase.init "app" (some "x.png") (some 2) exHeap)
        [Op.send 0 (SendOutcome.succeed (Nid.int 1)),
         Op.send 1 (SendOutcome.succeed (Nid.int 2)),
         Op.send 2 (SendOutcome.succeed (Nid.int 3))]).notification_for_nid
      (Nid.int 1) = some 0 ∧
    0 ∉ (runOps (DesktopNotifierBase.init "app" (some "x.png") (some 2) exHeap)
        [Op.send 0 (SendOutcome.succeed (Nid.int 1)),
         Op.send 1 (SendOutcome.succeed (Nid.int 2)),
         Op.send 2 (SendOutcome.succeed (Nid.int 3))]).current_notifications := by
  decide

/-- Claim C3, amended.  The deque part of the claim holds: with
`notification_limit = N`, `len(current_notifications) <= N` at every
reachable state, and after any sequence of successful sends the deque is
exactly the suffix of the sent notifications of length at most N
(the N most recently successfully sent, oldest first).  The id-index part is
corrected: in the scenario the id-index maps 1 to A, 2 to B and 3 to C, not
only 2 to B and 3 to C, because eviction does not remove the evicted
notification's id-index entry; evicted A has no deque entry but keeps its
id-index entry. -/
theorem c3_capacity_fifo_amended :
    (∀ (an : String) (ai : Option String) (h0 : Nat → Notification) (n : Nat)
      (ops : List Op),
      (runOps (DesktopNotifierBase.init an ai (some n) h0)
        ops).current_notifications.length ≤ n) ∧
    (∀ (an : String) (ai : Option String) (h0 : Nat → Notification) (n : Nat)
      (ps : List (Nat × Nid)), 1 ≤ n →
      (runOps (DesktopNotifierBase.init an ai (some n) h0)
          (sendOps ps)).current_notifications =
        (ps.map Prod.fst).drop (ps.length - n)) ∧
    ((runOps (DesktopNotifierBase.init "app" (some "x.png") (some 2) exHeap)
        [Op.send 0 (SendOutcome.succeed (Nid.int 1)),
         Op.send 1 (SendOutcome.succeed (Nid.int 2)),
         Op.send 2 (SendOutcome.succeed (Nid.int 3))]).current_notifications = [1, 2] ∧
      dictLookup (runOps (DesktopNotifierBase.init "app" (some "x.png") (some 2) exHeap)
        [Op.send 0 (SendOutcome.succeed (Nid.int 1)),
         Op.send 1 (SendOutcome.succeed (Nid.int 2)),
         Op.send 2 (SendOutcome.succeed (Nid.int 3))]).notification_for_nid
        (Nid.int 2) = some 1 ∧
      dictLookup (runOps (DesktopNotifierBase.init "app" (some "x.png") (some 2) exHeap)
        [Op.send 0 (SendOutcome.succeed (Nid.int 1)),
         Op.send 1 (SendOutcome.succeed (Nid.int 2)),
         Op.send 2 (SendOutcome.succeed (Nid.int 3))]).notification_for_nid
        (Nid.int 3) = some 2 ∧
      dictLookup (runOps (DesktopNotifierBase.init "app" (some "x.png") (some 2) exHeap)
        [Op.send 0 (SendOutcome.succeed (Nid.int 1)),
         Op.send 1 (SendOutcome.succeed (Nid.int 2)),
         Op.send 2 (SendOutcome.succeed (Nid.int 3))]).notification_for_nid
        (Nid.int 1) = some 0) := by
  refine ⟨?_, ?_, by decide⟩
  · intro an ai h0 n ops
    exact runOps_len ops (DesktopNotifierBase.init an ai (some n) h0) n rfl (Nat.zero_le n)
  · intro an ai h0 n ps hn
    have h := runOps_sendOps_deque ps (DesktopNotifierBase.init an ai (some n) h0) n rfl hn
      (Nat.zero_le n)
    rw [h]
    show (([] : List Nat) ++ ps.map Prod.fst).drop (List.length ([] : List Nat) + ps.length - n) = _
    rw [List.nil_append, List.length_nil, Nat.zero_add]

/-- Claim C3, witness for the amended theorem at the scenario input. -/
theorem c3_capacity_fifo_witness :
    (runOps (DesktopNotifierBase.init "app" none (some 2) exHeap)
        (sendOps [(0, Nid.int 1), (1, Nid.int 2), (2, Nid.int 3)])).current_notifications =
      (([(0, Nid.int 1), (1, Nid.int 2), (2, Nid.int 3)].map Prod.fst).drop
        ([(0, Nid.int 1), (1, Nid.int 2), (2, Nid.int 3)].length - 2)) :=
  c3_capacity_fifo_amended.2.1 "app" none exHeap 2
    [(0, Nid.int 1), (1, Nid.int 2), (2, Nid.int 3)] (by decide)

/-- Claim C4: whenever the backend `_send` was actually invoked (the call log
grew) and raised, `send` returns normally: no exception propagates to the
caller. -/
theorem c4_send_failure_no_raise (s : DesktopNotifierBase) (oid : Nat)
    (hcalled : (s.send oid SendOutcome.fail).1.backendCalls ≠ s.backendCalls) :
    (s.send oid SendOutcome.fail).2 = none := by
  rcases send_result_cases s oid SendOutcome.fail with h | ⟨h2, h1⟩
  · exact h
  · exact absurd (by rw [h1]; exact iconStep_log s oid) hcalled

/-- Claim C4, witness: a failing send from a fresh notifier reaches the
backend and raises nothing. -/
theorem c4_send_failure_no_raise_witness :
    ((DesktopNotifierBase.init "app" none none exHeap).send 0
        SendOutcome.fail).1.backendCalls ≠
      (DesktopNotifierBase.init "app" none none exHeap).backendCalls ∧
    ((DesktopNotifierBase.init "app" none none exHeap).send 0 SendOutcome.fail).2 =
      none :=
  ⟨by decide, c4_send_failure_no_raise (DesktopNotifierBase.init "app" none none exHeap)
    0 (by decide)⟩

/-- Claim C5, counterexample.  From a state holding one sent notification, a
`clear_all` whose backend call fails leaves both registry structures
untouched and propagates the exception: the local cleanup does not proceed,
contradicting "empties both registry structures regardless of the outcome of
the backend clear_all call". -/
theorem c5_counterexample :
    ((runOps (DesktopNotifierBase.init "app" none none exHeap)
        [Op.send 0 (SendOutcome.succeed (Nid.int 1))]).clear_all
        true).1.current_notifications = [0] ∧
    ((runOps (DesktopNotifierBase.init "app" none none exHeap)
        [Op.send 0 (SendOutcome.succeed (Nid.int 1))]).clear_all
        true).1.notification_for_nid = [(Nid.int 1, 0)] ∧
    ((runOps (DesktopNotifierBase.init "app" none none exHeap)
        [Op.send 0 (SendOutcome.succeed (Nid.int 1))]).clear_all true).2 =
      some PyErr.backendError := by
  decide

/-- Claim C5, amended.  `clear_all` empties both registry structures only
when the backend `_clear_all` call succeeds; when the backend call fails the
exception propagates and both structures are left exactly as they were
(the backend call happens first, so the local cleanup is skipped). -/
theorem c5_clear_all_amended :
    (∀ s : DesktopNotifierBase,
      (s.clear_all false).1.current_notifications = [] ∧
      (s.clear_all false).1.notification_for_nid = [] ∧
      (s.clear_all false).2 = none) ∧
    (∀ s : DesktopNotifierBase,
      (s.clear_all true).1.current_notifications = s.current_notifications ∧
      (s.clear_all true).1.notification_for_nid = s.notification_for_nid ∧
      (s.clear_all true).2 = some PyErr.backendError) := by
  constructor <;> intro s <;> exact ⟨rfl, rfl, rfl⟩

/-! ### Behaviour of clear with a successful backend -/

theorem clear_ok_current (s : DesktopNotifierBase) (oid : Nat) :
    (s.clear oid false).1.current_notifications =
      s.current_notifications.erase oid := by
  unfold DesktopNotifierBase.clear
  by_cases hid : identifierTruthy (s.heap oid).identifier = true
  · rw [if_pos hid, if_neg Bool.false_ne_true]
    exact cacheRemove_current _ oid
  · rw [if_neg hid]
    exact cacheRemove_current s oid

theorem clear_ok_dict (s : DesktopNotifierBase) (oid : Nat) :
    (s.clear oid false).1.notification_for_nid =
      match (s.heap oid).identifier with
      | some k =>
          if k.truthy then dictErase s.notification_for_nid k
          else s.notification_for_nid
      | none => s.notification_for_nid := by
  unfold DesktopNotifierBase.clear
  by_cases hid : identifierTruthy (s.heap oid).identifier = true
  · rw [if_pos hid, if_neg Bool.false_ne_true]
    exact cacheRemove_dict _ oid
  · rw [if_neg hid]
    exact cacheRemove_dict s oid

/-- Example state: one notification (object id 0) successfully sent with
platform id 1. -/
def exStateOne : DesktopNotifierBase :=
  runOps (DesktopNotifierBase.init "app" none none exHeap)
    [Op.send 0 (SendOutcome.succeed (Nid.int 1))]

/-- Example state: one notification (object id 0) successfully sent with the
falsy platform id 0. -/
def exStateFalsy : DesktopNotifierBase :=
  runOps (DesktopNotifierBase.init "app" none none exHeap)
    [Op.send 0 (SendOutcome.succeed (Nid.int 0))]

/-- Claim C6: with a successful backend, clearing the same notification
twice leaves the registry of the second call exactly as after the first
(idempotence, given that the deque holds no duplicate entry for the object
and the dict keys are unique, as in every reachable state); `clear_all`
twice in a row leaves an empty registry after each call; and the cache
removal of a notification absent from both registry structures is a complete
no-op (and, being a total function, raises no error). -/
theorem c6_clear_idempotent :
    (∀ (s : DesktopNotifierBase) (oid : Nat),
      s.current_notifications.count oid ≤ 1 →
      (dictKeys s.notification_for_nid).Nodup →
      (((s.clear oid false).1.clear oid false).1.current_notifications =
        (s.clear oid false).1.current_notifications ∧
      ((s.clear oid false).1.clear oid false).1.notification_for_nid =
        (s.clear oid false).1.notification_for_nid)) ∧
    (∀ s : DesktopNotifierBase,
      (s.clear_all false).1.current_notifications = [] ∧
      (s.clear_all false).1.notification_for_nid = [] ∧
      ((s.clear_all false).1.clear_all false).1.current_notifications = [] ∧
      ((s.clear_all false).1.clear_all false).1.notification_for_nid = []) ∧
    (∀ (s : DesktopNotifierBase) (oid : Nat),
      oid ∉ s.current_notifications →
      (∀ k, (s.heap oid).identifier = some k →
        dictLookup s.notification_for_nid k = none) →
      s.clearNotificationFromCache oid = s) := by
  refine ⟨?_, ?_, ?_⟩
  · intro s oid hcount hkeys
    have hheap : (s.clear oid false).1.heap = s.heap := clear_heap s oid false
    have hcur1 : (s.clear oid false).1.current_notifications =
        s.current_notifications.erase oid := clear_ok_current s oid
    have hnot : oid ∉ s.current_notifications.erase oid := by
      have h0 : (s.current_notifications.erase oid).count oid = 0 := by
        rw [List.count_erase_self]
        omega
      exact List.count_eq_zero.mp h0
    constructor
    · rw [clear_ok_current (s.clear oid false).1 oid, hcur1,
        List.erase_of_not_mem hnot]
    · rw [clear_ok_dict (s.clear oid false).1 oid, hheap]
      cases hI : (s.heap oid).identifier with
      | none => rfl
      | some k =>
          dsimp only
          by_cases ht : k.truthy = true
          · rw [if_pos ht]
            have hs1d : (s.clear oid false).1.notification_for_nid =
                dictErase s.notification_for_nid k := by
              rw [clear_ok_dict s oid]
              simp only [hI, if_pos ht]
            rw [hs1d]
            exact dictErase_of_lookup_none _ k (dictLookup_erase_self _ k hkeys)
          · rw [if_neg ht]
  · intro s
    exact ⟨rfl, rfl, rfl, rfl⟩
  · intro s oid hmem hdict
    unfold DesktopNotifierBase.clearNotificationFromCache
    cases hI : (s.heap oid).identifier with
    | none =>
        rw [List.erase_of_not_mem hmem]
    | some k =>
        dsimp only
        by_cases ht : k.truthy = true
        · rw [if_pos ht, List.erase_of_not_mem hmem,
            dictErase_of_lookup_none _ k (hdict k hI)]
        · rw [if_neg ht, List.erase_of_not_mem hmem]

/-- Claim C6, witness: idempotent clear on a one-element registry, double
clear_all, and the no-op cache removal of a never-sent notification. -/
theorem c6_clear_idempotent_witness :
    (((exStateOne.clear 0 false).1.clear 0 false).1.current_notifications =
      (exStateOne.clear 0 false).1.current_notifications ∧
    ((exStateOne.clear 0 false).1.clear 0 false).1.notification_for_nid =
      (exStateOne.clear 0 false).1.notification_for_nid) ∧
    ((exStateOne.clear_all false).1.current_notifications = [] ∧
      (exStateOne.clear_all false).1.notification_for_nid = [] ∧
      ((exStateOne.clear_all false).1.clear_all false).1.current_notifications = [] ∧
      ((exStateOne.clear_all false).1.clear_all false).1.notification_for_nid = []) ∧
    exStateOne.clearNotificationFromCache 5 = exStateOne :=
  ⟨c6_clear_idempotent.1 exStateOne 0 (by decide) (by decide),
   c6_clear_idempotent.2.1 exStateOne,
   c6_clear_idempotent.2.2 exStateOne 5 (by decide)
     (fun k hk => by
       rw [show (exStateOne.heap 5).identifier = none from by decide] at hk
       exact Option.noConfusion hk)⟩

/-- Claim C7: clearing a never-sent notification (identifier absent, hence
not in the registry) is a complete no-op: the backend `_clear` is never
invoked (the call log is unchanged), the registry is untouched, and no
exception is raised, whatever the backend would have done. -/
theorem c7_clear_unsent (s : DesktopNotifierBase) (oid : Nat) (bf : Bool)
    (hid : (s.heap oid).identifier = none)
    (hmem : oid ∉ s.current_notifications) :
    s.clear oid bf = (s, none) := by
  have ht : identifierTruthy (s.heap oid).identifier = false := by
    rw [hid]
    rfl
  unfold DesktopNotifierBase.clear
  rw [if_neg (by rw [ht]; exact Bool.false_ne_true)]
  unfold DesktopNotifierBase.clearNotificationFromCache
  rw [hid]
  dsimp only
  rw [List.erase_of_not_mem hmem]

/-- Claim C7, witness: clearing a never-sent notification from a fresh
notifier changes nothing and raises nothing, with any backend behaviour. -/
theorem c7_clear_unsent_witness :
    (DesktopNotifierBase.init "app" none none exHeap).clear 0 true =
      (DesktopNotifierBase.init "app" none none exHeap, none) :=
  c7_clear_unsent (DesktopNotifierBase.init "app" none none exHeap) 0 true rfl
    (by decide)

/-- The only way `send` can avoid calling the backend: the deque is at
capacity and empty (limit 0), so `popleft` raises `IndexError` first. -/
def sendRaisesIndexError (s : DesktopNotifierBase) (oid : Nat) : Prop :=
  atCapacity (iconStep s oid) = true ∧ (iconStep s oid).current_notifications = []

theorem send_log_eq (s : DesktopNotifierBase) (oid : Nat) (outcome : SendOutcome)
    (hc : ¬ sendRaisesIndexError s oid) :
    ∃ rep, (s.send oid outcome).1.backendCalls =
      s.backendCalls ++ [BackendCall.send oid ((iconStep s oid).heap oid).icon rep] := by
  unfold DesktopNotifierBase.send
  cases hC : atCapacity (iconStep s oid) with
  | false =>
      simp only [Bool.false_eq_true, if_false]
      refine ⟨none, ?_⟩
      cases outcome with
      | fail =>
          simp only [sendBackendStep]
          rw [iconStep_log]
      | succeed nid =>
          simp only [sendBackendStep]
          rw [iconStep_log]
  | true =>
      simp only [if_true]
      cases hL : (iconStep s oid).current_notifications with
      | nil => exact absurd ⟨hC, hL⟩ hc
      | cons r rest =>
          refine ⟨some r, ?_⟩
          cases outcome with
          | fail =>
              simp only [sendBackendStep]
              rw [iconStep_log]
          | succeed nid =>
              simp only [sendBackendStep]
              rw [iconStep_log]

/-- Claim C8: when the backend is reached, the `_send` call observes the
notification with its icon already defaulted: an unset icon has been
replaced by the notifier's `app_icon`, while a non-empty icon string is kept
as it was. -/
theorem c8_icon_defaulting :
    (∀ (s : DesktopNotifierBase) (oid : Nat) (outcome : SendOutcome),
      ¬ sendRaisesIndexError s oid → (s.heap oid).icon = none →
      ∃ rep, (s.send oid outcome).1.backendCalls =
        s.backendCalls ++ [BackendCall.send oid s.app_icon rep]) ∧
    (∀ (s : DesktopNotifierBase) (oid : Nat) (outcome : SendOutcome) (str : String),
      ¬ sendRaisesIndexError s oid → (s.heap oid).icon = some str → str ≠ "" →
      ∃ rep, (s.send oid outcome).1.backendCalls =
        s.backendCalls ++ [BackendCall.send oid (some str) rep]) := by
  constructor
  · intro s oid outcome hc hicon
    obtain ⟨rep, hlog⟩ := send_log_eq s oid outcome hc
    refine ⟨rep, ?_⟩
    rw [hlog]
    have hi : ((iconStep s oid).heap oid).icon = s.app_icon := by
      rw [iconStep_heap_icon_self, hicon]
      rfl
    rw [hi]
  · intro s oid outcome str hc hicon hstr
    obtain ⟨rep, hlog⟩ := send_log_eq s oid outcome hc
    refine ⟨rep, ?_⟩
    rw [hlog]
    have hf : strOptFalsy (s.heap oid).icon = false := by
      rw [hicon]
      show (str == "") = false
      exact beq_eq_false_iff_ne.mpr hstr
    have hi : ((iconStep s oid).heap oid).icon = some str := by
      rw [iconStep_heap_icon_self, hf]
      rw [if_neg Bool.false_ne_true, hicon]
    rw [hi]

/-- Claim C8, witness: a send with unset icon delivers the app icon to the
backend; one with a set icon keeps it. -/
theorem c8_icon_defaulting_witness :
    ∃ rep, ((DesktopNotifierBase.init "app" (some "x.png") none exHeap).send 0
        (SendOutcome.succeed (Nid.int 1))).1.backendCalls =
      (DesktopNotifierBase.init "app" (some "x.png") none exHeap).backendCalls ++
        [BackendCall.send 0 (some "x.png") rep] :=
  c8_icon_defaulting.1 (DesktopNotifierBase.init "app" (some "x.png") none exHeap) 0
    (SendOutcome.succeed (Nid.int 1))
    (fun h => absurd h.1 (by decide)) rfl

/-- Claim C9: with `notification_limit = 0`, at every reachable state every
`send` call performs the icon defaulting, then raises `IndexError` out of
`popleft` on the empty deque before the backend is ever invoked (the call
log is unchanged), whatever the backend would have answered. -/
theorem c9_limit_zero_send_raises (an : String) (ai : Option String)
    (h0 : Nat → Notification) (ops : List Op) (oid : Nat) (outcome : SendOutcome) :
    (runOps (DesktopNotifierBase.init an ai (some 0) h0) ops).send oid outcome =
      (iconStep (runOps (DesktopNotifierBase.init an ai (some 0) h0) ops) oid,
        some PyErr.indexError) ∧
    (iconStep (runOps (DesktopNotifierBase.init an ai (some 0) h0) ops)
        oid).backendCalls =
      (runOps (DesktopNotifierBase.init an ai (some 0) h0) ops).backendCalls := by
  have hlim : (runOps (DesktopNotifierBase.init an ai (some 0) h0)
      ops).notification_limit = some 0 := by
    rw [runOps_limit]
    rfl
  have hlen : (runOps (DesktopNotifierBase.init an ai (some 0) h0)
      ops).current_notifications.length ≤ 0 :=
    runOps_len ops (DesktopNotifierBase.init an ai (some 0) h0) 0 rfl (Nat.le_refl 0)
  have hnil : (runOps (DesktopNotifierBase.init an ai (some 0) h0)
      ops).current_notifications = [] :=
    List.length_eq_zero.mp (Nat.le_zero.mp hlen)
  have hnil2 : (iconStep (runOps (DesktopNotifierBase.init an ai (some 0) h0) ops)
      oid).current_notifications = [] := by
    rw [iconStep_current, hnil]
  have hC : atCapacity (iconStep (runOps (DesktopNotifierBase.init an ai (some 0) h0)
      ops) oid) = true := by
    refine (atCapacity_true_iff _).2 ⟨0, ?_, ?_⟩
    · rw [iconStep_limit, hlim]
    · rw [hnil2]
      rfl
  refine ⟨?_, iconStep_log _ oid⟩
  unfold DesktopNotifierBase.send
  rw [if_pos hC, hnil2]

/-- Claim C10: for a notification whose backend-assigned identifier is falsy
(`0` or `""`), `clear` skips the backend `_clear` call entirely (so the
claimed backend failure never occurs and no error is raised) and the cache
removal erases the notification from the deque but skips the id-index
deletion, leaving its dict entry in place: the notification is treated as
unsent by `clear` and its id-index entry is never removed. -/
theorem c10_falsy_identifier (s : DesktopNotifierBase) (oid : Nat) (k : Nid)
    (bf : Bool) (hid : (s.heap oid).identifier = some k)
    (hk : k.truthy = false) :
    s.clear oid bf = (s.clearNotificationFromCache oid, none) ∧
    (s.clearNotificationFromCache oid).backendCalls = s.backendCalls ∧
    (s.clearNotificationFromCache oid).notification_for_nid =
      s.notification_for_nid ∧
    (s.clearNotificationFromCache oid).current_notifications =
      s.current_notifications.erase oid := by
  have ht : identifierTruthy (s.heap oid).identifier = false := by
    rw [hid]
    exact hk
  refine ⟨?_, cacheRemove_log s oid, ?_, cacheRemove_current s oid⟩
  · unfold DesktopNotifierBase.clear
    rw [if_neg (by rw [ht]; exact Bool.false_ne_true)]
  · rw [cacheRemove_dict, hid]
    dsimp only
    rw [if_neg (by rw [hk]; exact Bool.false_ne_true)]

/-- Claim C10, witness: a notification sent with platform id 0 is treated as
unsent by `clear` and keeps its id-index entry through cache removal. -/
theorem c10_falsy_identifier_witness :
    exStateFalsy.clear 0 true = (exStateFalsy.clearNotificationFromCache 0, none) ∧
    (exStateFalsy.clearNotificationFromCache 0).backendCalls =
      exStateFalsy.backendCalls ∧
    (exStateFalsy.clearNotificationFromCache 0).notification_for_nid =
      exStateFalsy.notification_for_nid ∧
    (exStateFalsy.clearNotificationFromCache 0).current_notifications =
      exStateFalsy.current_notifications.erase 0 :=
  c10_falsy_identifier exStateFalsy 0 (Nid.int 0) true (by decide) (by decide)

end DesktopNotifier
